import Mathlib

/-!
Verification of the turn-orchestration core of a chat relay service
(`src/main.py`): windowed history assembly, prompt construction,
primary/fallback model dispatch with trace logging, and persistence.

The store is modelled as a list of rows in insertion order (insertion
order is the chronological order, matching `created_at` with ties broken
by insertion).  The upstream completion endpoint is modelled by an
`LLMOutcome` oracle, one per attempted model, describing what the single
HTTP request for that attempt does.
-/

namespace Chatbot

/-- A Python dict with string keys and string values, as an association
list; lookup takes the first binding, matching dict semantics. -/
abbrev Dict := List (String × String)

/-- Lookup `d.get(k)`: `some v` when the key is present, `none` otherwise. -/
def dget (r : Dict) (k : String) : Option String :=
  (r.find? (fun p => p.1 == k)).map (fun p => p.2)

/-- Python truthiness of `r.get(k)`: `None` and `""` are falsy. -/
def truthy : Option String → Bool
  | none => false
  | some s => !s.isEmpty

/-- A row of the `messages` table (`created_at` is the position in the
store list). -/
structure Row where
  session_id : String
  role : String
  content : String
deriving Repr, DecidableEq

/-- Constant `SYSTEM_PROMPT` from `src/main.py`. -/
def SYSTEM_PROMPT : String :=
  "You are a rude website chatbot. Be concise, sarcastic, and unfiltered."

/-- Constant `PRIMARY_MODEL` from `src/main.py`. -/
def PRIMARY_MODEL : String := "meta-llama/llama-3-8b-instruct"

/-- Constant `FALLBACK_MODEL` from `src/main.py`. -/
def FALLBACK_MODEL : String := "mistralai/mistral-7b-instruct"

/-- The guard of the comprehension in `format_history`:
`r.get("role") and r.get("content")`. -/
def keepRow (r : Dict) : Bool :=
  truthy (dget r "role") && truthy (dget r "content")

/-- The element built by the comprehension in `format_history`:
`{"role": r["role"], "content": r["content"]}` (under the guard both
lookups are `some`, so the `""` default is never used). -/
def projRow (r : Dict) : Dict :=
  [("role", (dget r "role").getD ""), ("content", (dget r "content").getD "")]

/-- Function `format_history` from `src/main.py`: keep the rows whose `role` and
`content` are both present and non-empty, projecting each kept row to a
dict with exactly the keys `role` and `content`. -/
def format_history (rows : List Dict) : List Dict :=
  (rows.filter keepRow).map projRow

/-- What one upstream HTTP request does in `call_llm`.  `duration` is the
rounded wall-clock time printed in the trace. -/
inductive LLMOutcome where
  /-- status 200 with a well-formed body carrying `content`. -/
  | success (content : String) (duration : String)
  /-- non-200 status; `text` is the response text raised in the error. -/
  | httpError (text : String) (duration : String)
  /-- status 200 but the body is missing the expected reply field. -/
  | malformedBody (duration : String)
  /-- The call `requests.post` itself raises: transport error or timeout. -/
  | transportError
deriving Repr, DecidableEq

/-- The content extracted by a `call_llm` attempt, `none` when the
attempt raises. -/
def LLMOutcome.content : LLMOutcome → Option String
  | .success c _ => some c
  | .httpError _ _ => none
  | .malformedBody _ => none
  | .transportError => none

/-- The trace line `call_llm` appends before the request. -/
def callingLine (model : String) : String := "→ Calling model: " ++ model

/-- The trace line `call_llm` appends after a received response. -/
def timeLine (duration : String) : String := "→ Response time: " ++ duration ++ "s"

/-- Function `call_llm` from `src/main.py`: appends the invocation line, performs
the request (whose behaviour is the given outcome), appends the elapsed
time when a response is received, and returns the extracted content or
`none` when the attempt raises (non-200 status, malformed body, or a
transport error/timeout in which case no elapsed line is reached). -/
def call_llm (model : String) (messages : List Dict) (logs : List String)
    (outcome : LLMOutcome) : List String × Option String :=
  let logs1 := logs ++ [callingLine model]
  match outcome with
  | .transportError => (logs1, none)
  | .success c d => (logs1 ++ [timeLine d], some c)
  | .httpError _ d => (logs1 ++ [timeLine d], none)
  | .malformedBody d => (logs1 ++ [timeLine d], none)

/-- The `role, content` projection performed by the query's `select`. -/
def rowToDict (r : Row) : Dict := [("role", r.role), ("content", r.content)]

/-- The supabase query in `chat`: rows of the session, ordered by time
descending, limited to `lim`, projected to `role, content`. -/
def query_recent (store : List Row) (sid : String) (lim : Nat) : List Dict :=
  (((store.filter (fun r => r.session_id == sid)).reverse).take lim).map rowToDict

/-- The value returned by the `/chat` route. -/
inductive ChatResult where
  | ok (reply : String) (logs : List String) (model : String)
  | err (error : String) (logs : List String)
deriving Repr, DecidableEq

/-- The `error` field of the returned value, when present. -/
def ChatResult.errorOf : ChatResult → Option String
  | .ok _ _ _ => none
  | .err e _ => some e

/-- The `model` field of the returned value, when present. -/
def ChatResult.modelOf : ChatResult → Option String
  | .ok _ _ m => some m
  | .err _ _ => none

/-- The `reply` field of the returned value, when present. -/
def ChatResult.replyOf : ChatResult → Option String
  | .ok r _ _ => some r
  | .err _ _ => none

/-- The `logs` field of the returned value. -/
def ChatResult.logsOf : ChatResult → List String
  | .ok _ l _ => l
  | .err _ l => l

/-- Everything observable about one turn: the returned value, the store
after the turn, the models dispatched (in order), and the assembled
prompt sequence. -/
structure TurnOutput where
  result : ChatResult
  store : List Row
  attempts : List String
  messages : List Dict
deriving Repr, DecidableEq

/-- The dict for the system directive entry of the prompt. -/
def sysDict : Dict := [("role", "system"), ("content", SYSTEM_PROMPT)]

/-- The dict for a user entry of the prompt. -/
def userDict (msg : String) : Dict := [("role", "user"), ("content", msg)]

/-- The row inserted for the inbound user message. -/
def userRow (sid msg : String) : Row := ⟨sid, "user", msg⟩

/-- The row inserted for the outbound assistant message. -/
def assistantRow (sid reply : String) : Row := ⟨sid, "assistant", reply⟩

/-- The `chat` route from `src/main.py`, parameterised by the raw
`res.data` payload of the history query (`none` models a null payload)
and by the outcome of each model's single attempt.  Effects in source
order: insert the user row, fetch history, reverse to chronological
order, assemble `[system] ++ format_history(history) ++ [user]`, try the
primary model, on failure the fallback, and on success insert the
assistant row. -/
def chat (sid msg : String) (store : List Row) (resData : Option (List Dict))
    (primaryOutcome fallbackOutcome : LLMOutcome) : TurnOutput :=
  let logs := ["✓ Received user message"]
  let store1 := store ++ [userRow sid msg]
  let logs := logs ++ ["✓ User message saved"]
  let history := (resData.getD []).reverse
  let logs := logs ++ ["✓ Loaded " ++ toString history.length ++ " history messages"]
  let messages := sysDict :: (format_history history ++ [userDict msg])
  match call_llm PRIMARY_MODEL messages logs primaryOutcome with
  | (logs1, some reply) =>
    let logs2 := logs1 ++ ["✓ Reply generated via " ++ PRIMARY_MODEL]
    let store2 := store1 ++ [assistantRow sid reply]
    let logs3 := logs2 ++ ["✓ Assistant message saved"]
    ⟨.ok reply logs3 PRIMARY_MODEL, store2, [PRIMARY_MODEL], messages⟩
  | (logs1, none) =>
    let logs2 := logs1 ++ ["⚠ Primary model failed, switching fallback"]
    match call_llm FALLBACK_MODEL messages logs2 fallbackOutcome with
    | (logs3, some reply) =>
      let logs4 := logs3 ++ ["✓ Reply generated via " ++ FALLBACK_MODEL]
      let store2 := store1 ++ [assistantRow sid reply]
      let logs5 := logs4 ++ ["✓ Assistant message saved"]
      ⟨.ok reply logs5 FALLBACK_MODEL, store2, [PRIMARY_MODEL, FALLBACK_MODEL], messages⟩
    | (logs3, none) =>
      let logs4 := logs3 ++ ["❌ Fallback model failed"]
      ⟨.err "LLM failed" logs4, store1, [PRIMARY_MODEL, FALLBACK_MODEL], messages⟩

/-- A turn against an honest, immediately consistent store: the history
query runs after the user row is inserted, so its payload is computed
from `store ++ [userRow sid msg]`. -/
def chatWithStore (sid msg : String) (store : List Row)
    (primaryOutcome fallbackOutcome : LLMOutcome) : TurnOutput :=
  chat sid msg store (some (query_recent (store ++ [userRow sid msg]) sid 6))
    primaryOutcome fallbackOutcome

/-! ### Helper lemmas -/

/-- The assembled prompt of a turn, whatever the attempt outcomes. -/
theorem chat_messages (sid msg : String) (store : List Row) (resData : Option (List Dict))
    (p f : LLMOutcome) :
    (chat sid msg store resData p f).messages
      = sysDict :: (format_history ((resData.getD []).reverse) ++ [userDict msg]) := by
  cases p <;> cases f <;> rfl

theorem truthy_eq_true_iff (o : Option String) :
    truthy o = true ↔ ∃ s, o = some s ∧ s ≠ "" := by
  cases o <;> simp [truthy, Bool.eq_false_iff, String.isEmpty_iff]

/-! ### C3 -/

/-- C3: for every turn — whatever the store, the history payload
(including an empty or null one) and the outcomes of the two attempts —
the assembled PromptSequence starts with the system directive and ends
with the new user message. -/
theorem C3_prompt_invariant (sid msg : String) (store : List Row)
    (resData : Option (List Dict)) (p f : LLMOutcome) :
    (chat sid msg store resData p f).messages.head? = some sysDict
      ∧ (chat sid msg store resData p f).messages.getLast? = some (userDict msg) := by
  rw [chat_messages]
  refine ⟨rfl, ?_⟩
  rw [show sysDict :: (format_history ((resData.getD []).reverse) ++ [userDict msg])
        = (sysDict :: format_history ((resData.getD []).reverse)) ++ [userDict msg] from rfl]
  exact List.getLast?_concat _

/-! ### C10 -/

/-- C10 counterexample: for a session with no prior history, a null
history payload does not reproduce the turn the code performs against
the real store — the real fetch runs after the user insert and already
sees the new user message, so the prompt and the "Loaded n history
messages" log line differ. -/
theorem C10_counterexample :
    chat "s3" "hey" [] none (.success "r" "0.2") .transportError
      ≠ chatWithStore "s3" "hey" [] (.success "r" "0.2") .transportError := by
  decide

/-- C10 (amended): if the history query returns a null or absent data
payload, the turn does not fail: the window is treated as the empty
list — the turn behaves exactly as when the query returns an empty row
list — and it proceeds to prompt assembly and dispatch with the prompt
[system directive, new user message]. -/
theorem C10_null_data_amended (sid msg : String) (store : List Row) (p f : LLMOutcome) :
    chat sid msg store none p f = chat sid msg store (some []) p f
      ∧ (chat sid msg store none p f).messages = [sysDict, userDict msg] := by
  constructor
  · cases p <;> cases f <;> rfl
  · cases p <;> cases f <;> rfl

/-! ### C1 -/

/-- C1 counterexample: on session "s1" with no prior stored messages and
user message "hi", the assembled prompt is not [system directive,
user("hi")] — the user row is inserted before the history fetch, so the
fetched window already contains user("hi") and the prompt carries it
twice. -/
theorem C1_counterexample :
    (chatWithStore "s1" "hi" [] (.success "hello" "0.1") .transportError).messages
      ≠ [sysDict, userDict "hi"] := by
  decide

/-- C1 (amended): on session "s1" with no prior stored messages and user
message "hi", the window contains exactly the just-persisted user("hi"),
the prompt is [system directive, user("hi"), user("hi")], and when the
primary model succeeds with "hello" the result is {reply:"hello",
model:primary} and the store receives exactly two inserts in order:
user("hi") then assistant("hello") — whatever the elapsed time and
whatever the (never consulted) fallback outcome. -/
theorem C1_scenario_amended (d : String) (f : LLMOutcome) :
    chatWithStore "s1" "hi" [] (.success "hello" d) f
      = ⟨.ok "hello"
            ["✓ Received user message", "✓ User message saved",
             "✓ Loaded 1 history messages",
             callingLine PRIMARY_MODEL, timeLine d,
             "✓ Reply generated via " ++ PRIMARY_MODEL,
             "✓ Assistant message saved"]
            PRIMARY_MODEL,
         [userRow "s1" "hi", assistantRow "s1" "hello"],
         [PRIMARY_MODEL],
         [sysDict, userDict "hi", userDict "hi"]⟩ := by
  rfl

/-! ### C6 -/

/-- C6 counterexample: on a transport error or timeout the dispatcher
appends only the invocation line — `requests.post` raises before the
elapsed-time line is reached — so it is not the case that every outcome
gets one line before and one line after. -/
theorem C6_counterexample :
    (call_llm PRIMARY_MODEL [] [] .transportError).1 = [callingLine PRIMARY_MODEL]
      ∧ ((call_llm PRIMARY_MODEL [] [] .transportError).1).length ≠ 2 := by
  decide

/-- C6 (amended): every attempt appends exactly one trace line naming
the invoked model before the request; the elapsed-time line is appended
after it exactly when an HTTP response is received (success, non-success
status, or malformed body), and not when the request itself raises
(transport error or timeout). -/
theorem C6_trace_amended (model : String) (messages : List Dict) (logs : List String)
    (o : LLMOutcome) :
    ∃ after, (call_llm model messages logs o).1 = logs ++ callingLine model :: after
      ∧ (o = .transportError → after = [])
      ∧ (o ≠ .transportError → ∃ d, after = [timeLine d]) := by
  cases o with
  | transportError => exact ⟨[], by simp [call_llm], fun _ => rfl, fun h => absurd rfl h⟩
  | success c d =>
    exact ⟨[timeLine d], by simp [call_llm], fun h => LLMOutcome.noConfusion h,
      fun _ => ⟨d, rfl⟩⟩
  | httpError t d =>
    exact ⟨[timeLine d], by simp [call_llm], fun h => LLMOutcome.noConfusion h,
      fun _ => ⟨d, rfl⟩⟩
  | malformedBody d =>
    exact ⟨[timeLine d], by simp [call_llm], fun h => LLMOutcome.noConfusion h,
      fun _ => ⟨d, rfl⟩⟩

/-- Witness for C6 (amended) on a concrete successful attempt. -/
theorem C6_trace_amended_witness :
    ∃ after, (call_llm "m" [] [] (.success "ok" "1.5")).1 = [] ++ callingLine "m" :: after
      ∧ ((.success "ok" "1.5" : LLMOutcome) = .transportError → after = [])
      ∧ ((.success "ok" "1.5" : LLMOutcome) ≠ .transportError → ∃ d, after = [timeLine d]) :=
  C6_trace_amended "m" [] [] (.success "ok" "1.5")

/-! ### C4 -/

/-- C4: whenever both the primary and the fallback attempt fail, the
turn returns the single error value "LLM failed" with a non-empty trace,
and the store gains only the user message — no assistant row is
persisted. -/
theorem C4_both_fail (sid msg : String) (store : List Row) (resData : Option (List Dict))
    (p f : LLMOutcome) (hp : p.content = none) (hf : f.content = none) :
    (chat sid msg store resData p f).result.errorOf = some "LLM failed"
      ∧ (chat sid msg store resData p f).result.logsOf ≠ []
      ∧ (chat sid msg store resData p f).store = store ++ [userRow sid msg] := by
  cases p <;> cases f <;> simp [LLMOutcome.content] at hp hf <;>
    exact ⟨rfl, by simp [chat, call_llm, ChatResult.logsOf], rfl⟩

/-- Witness for C4 on a concrete doubly-failing turn. -/
theorem C4_both_fail_witness :
    (chat "s4" "m" [] none .transportError (.httpError "boom" "2.0")).result.errorOf
        = some "LLM failed"
      ∧ (chat "s4" "m" [] none .transportError (.httpError "boom" "2.0")).result.logsOf ≠ []
      ∧ (chat "s4" "m" [] none .transportError (.httpError "boom" "2.0")).store
        = [] ++ [userRow "s4" "m"] :=
  C4_both_fail "s4" "m" [] none .transportError (.httpError "boom" "2.0") rfl rfl

/-! ### C5 -/

/-- C5: every turn dispatches at most two model attempts and never
retries the same model (the attempted model names are distinct); and
whenever the primary attempt succeeds, the only attempt is the primary
one — the fallback is never invoked — and the returned model identifier
is the primary identifier. -/
theorem C5_dispatch_bounds (sid msg : String) (store : List Row)
    (resData : Option (List Dict)) (p f : LLMOutcome) :
    (chat sid msg store resData p f).attempts.length ≤ 2
      ∧ (chat sid msg store resData p f).attempts.Nodup
      ∧ (∀ c d, p = .success c d →
          (chat sid msg store resData p f).attempts = [PRIMARY_MODEL]
            ∧ (chat sid msg store resData p f).result.modelOf = some PRIMARY_MODEL) := by
  cases p <;> cases f <;>
    refine ⟨by simp [chat, call_llm],
      by simp [chat, call_llm, PRIMARY_MODEL, FALLBACK_MODEL], ?_⟩ <;>
    intro c d h <;> first
      | exact LLMOutcome.noConfusion h
      | exact ⟨rfl, rfl⟩

/-- Witness for C5 on a concrete turn whose primary attempt succeeds. -/
theorem C5_dispatch_bounds_witness :
    (chat "s5" "m" [] none (.success "r" "0.3") .transportError).attempts = [PRIMARY_MODEL]
      ∧ (chat "s5" "m" [] none (.success "r" "0.3") .transportError).result.modelOf
        = some PRIMARY_MODEL :=
  (C5_dispatch_bounds "s5" "m" [] none (.success "r" "0.3") .transportError).2.2 "r" "0.3" rfl

/-! ### C7 -/

/-- C7: whenever the primary attempt fails and the fallback attempt
succeeds with content `c`, the turn returns reply `c` with the fallback
model identifier, and the trace contains the invocation line of each of
the two models. -/
theorem C7_fallback_serves (sid msg : String) (store : List Row)
    (resData : Option (List Dict)) (p f : LLMOutcome) (c : String)
    (hp : p.content = none) (hf : f.content = some c) :
    (chat sid msg store resData p f).result.modelOf = some FALLBACK_MODEL
      ∧ (chat sid msg store resData p f).result.replyOf = some c
      ∧ callingLine PRIMARY_MODEL ∈ (chat sid msg store resData p f).result.logsOf
      ∧ callingLine FALLBACK_MODEL ∈ (chat sid msg store resData p f).result.logsOf := by
  cases p <;> cases f <;> simp [LLMOutcome.content] at hp hf <;> subst hf <;>
    exact ⟨rfl, rfl,
      by simp [chat, call_llm, ChatResult.logsOf],
      by simp [chat, call_llm, ChatResult.logsOf]⟩

/-- Witness for C7 on a concrete turn where the primary times out and
the fallback answers "ok". -/
theorem C7_fallback_serves_witness :
    (chat "s2" "m" [] none .transportError (.success "ok" "1.0")).result.modelOf
        = some FALLBACK_MODEL
      ∧ (chat "s2" "m" [] none .transportError (.success "ok" "1.0")).result.replyOf = some "ok"
      ∧ callingLine PRIMARY_MODEL
          ∈ (chat "s2" "m" [] none .transportError (.success "ok" "1.0")).result.logsOf
      ∧ callingLine FALLBACK_MODEL
          ∈ (chat "s2" "m" [] none .transportError (.success "ok" "1.0")).result.logsOf :=
  C7_fallback_serves "s2" "m" [] none .transportError (.success "ok" "1.0") "ok" rfl rfl

/-! ### Lemmas on format_history -/

theorem dget_projRow_role (r : Dict) :
    dget (projRow r) "role" = some ((dget r "role").getD "") := rfl

theorem dget_projRow_content (r : Dict) :
    dget (projRow r) "content" = some ((dget r "content").getD "") := rfl

theorem keepRow_iff (r : Dict) :
    keepRow r = true
      ↔ (∃ s, dget r "role" = some s ∧ s ≠ "") ∧ (∃ s, dget r "content" = some s ∧ s ≠ "") := by
  simp [keepRow, truthy_eq_true_iff]

theorem truthy_eq_false_iff (o : Option String) :
    truthy o = false ↔ o = none ∨ o = some "" := by
  cases o <;> simp [truthy, String.isEmpty_iff]

theorem projRow_projRow (r : Dict) : projRow (projRow r) = projRow r := rfl

theorem keepRow_projRow (r : Dict) (h : keepRow r = true) : keepRow (projRow r) = true := by
  obtain ⟨⟨a, ha, hane⟩, ⟨b, hb, hbne⟩⟩ := (keepRow_iff r).mp h
  rw [keepRow_iff, dget_projRow_role, dget_projRow_content, ha, hb]
  exact ⟨⟨a, rfl, hane⟩, ⟨b, rfl, hbne⟩⟩

theorem fh_append (l1 l2 : List Dict) :
    format_history (l1 ++ l2) = format_history l1 ++ format_history l2 := by
  simp [format_history, List.filter_append]

/-! ### C8 -/

/-- C8: the window builder drops exactly those retrieved rows whose
role or content field is missing or empty and keeps all the others,
projected; a dropped row simply disappears from the output — no error
result exists, the builder stays a total function into a row list. -/
theorem C8_drop_keep (pre post : List Dict) (r : Dict) :
    ((dget r "role" = none ∨ dget r "role" = some "" ∨ dget r "content" = none
        ∨ dget r "content" = some "") →
      format_history (pre ++ r :: post) = format_history (pre ++ post))
    ∧ ((∃ s, dget r "role" = some s ∧ s ≠ "") → (∃ s, dget r "content" = some s ∧ s ≠ "") →
      format_history (pre ++ r :: post)
        = format_history pre ++ projRow r :: format_history post) := by
  have hsplit : format_history (pre ++ r :: post)
      = format_history pre ++ (format_history [r] ++ format_history post) := by
    rw [show pre ++ r :: post = pre ++ ([r] ++ post) by simp, fh_append, fh_append]
  constructor
  · intro h
    have hk : keepRow r = false := by
      rcases h with h | h | h | h <;> simp [keepRow, truthy_eq_false_iff, h]
    rw [hsplit, fh_append]
    simp [format_history, List.filter, hk]
  · intro h1 h2
    have hk : keepRow r = true := (keepRow_iff r).mpr ⟨h1, h2⟩
    rw [hsplit]
    simp [format_history, List.filter, hk]

/-- Witness for C8: a row without a content field is silently dropped,
and a well-formed row is kept in place. -/
theorem C8_drop_keep_witness :
    (format_history ([[("role", "user"), ("content", "a")]] ++ [("role", "user")] :: [])
        = format_history ([[("role", "user"), ("content", "a")]] ++ []))
      ∧ (format_history ([] ++ [("role", "user"), ("content", "b")] :: [])
        = format_history [] ++ projRow [("role", "user"), ("content", "b")] :: format_history []) :=
  ⟨(C8_drop_keep [[("role", "user"), ("content", "a")]] [] [("role", "user")]).1
      (Or.inr (Or.inr (Or.inl rfl))),
    (C8_drop_keep [] [] [("role", "user"), ("content", "b")]).2
      ⟨"user", rfl, by decide⟩ ⟨"b", rfl, by decide⟩⟩

/-! ### C9 -/

/-- C9: the history-formatting step is idempotent; its output is the
projection of a sublist of its input (so kept entries appear in their
original relative order); and every output entry is a dict with exactly
the keys role and content, both non-empty. -/
theorem C9_idempotent_order (rows : List Dict) :
    format_history (format_history rows) = format_history rows
      ∧ (∃ sub, List.Sublist sub rows ∧ format_history rows = sub.map projRow)
      ∧ (∀ e ∈ format_history rows, ∃ rv cv, rv ≠ "" ∧ cv ≠ ""
          ∧ e = [("role", rv), ("content", cv)]) := by
  refine ⟨?_, ⟨rows.filter keepRow, List.filter_sublist rows, rfl⟩, ?_⟩
  · show format_history ((rows.filter keepRow).map projRow) = format_history rows
    unfold format_history
    rw [List.filter_map, List.map_map]
    have hself : (rows.filter keepRow).filter (keepRow ∘ projRow) = rows.filter keepRow := by
      apply List.filter_eq_self.mpr
      intro a ha
      exact keepRow_projRow a (List.mem_filter.mp ha).2
    have hmap : List.map (projRow ∘ projRow) ((rows.filter keepRow).filter (keepRow ∘ projRow))
        = List.map projRow ((rows.filter keepRow).filter (keepRow ∘ projRow)) :=
      List.map_congr_left (fun a _ => projRow_projRow a)
    rw [hmap, hself]
  · intro e he
    obtain ⟨a, ha, hae⟩ := List.mem_map.mp he
    have hk : keepRow a = true := (List.mem_filter.mp ha).2
    obtain ⟨⟨rv, hrv, hrvne⟩, ⟨cv, hcv, hcvne⟩⟩ := (keepRow_iff a).mp hk
    exact ⟨rv, cv, hrvne, hcvne, by rw [← hae]; simp [projRow, hrv, hcv]⟩

/-- Witness for C9 at a concrete row list: an extra field is projected
away and a malformed row dropped, idempotently. -/
theorem C9_idempotent_order_witness :
    format_history (format_history [[("role", "user"), ("content", "hi"), ("x", "y")],
        [("role", "")]])
      = format_history [[("role", "user"), ("content", "hi"), ("x", "y")], [("role", "")]]
      ∧ (∃ rv cv, rv ≠ "" ∧ cv ≠ ""
          ∧ [("role", "user"), ("content", "hi")] = [("role", rv), ("content", cv)]) :=
  ⟨(C9_idempotent_order [[("role", "user"), ("content", "hi"), ("x", "y")], [("role", "")]]).1,
    (C9_idempotent_order [[("role", "user"), ("content", "hi"), ("x", "y")], [("role", "")]]).2.2
      [("role", "user"), ("content", "hi")] (by decide)⟩

/-! ### C2 -/

/-- The rows of one session, in chronological order. -/
def sessionRows (store : List Row) (sid : String) : List Row :=
  store.filter (fun r => r.session_id == sid)

/-- The ConversationWindow the code builds for a turn against the
honest store: `format_history(list(reversed(res.data or [])))` where the
query runs after the user row is inserted. -/
def windowOf (sid msg : String) (store : List Row) : List Dict :=
  format_history ((query_recent (store ++ [userRow sid msg]) sid 6).reverse)

theorem projRow_rowToDict (r : Row) : projRow (rowToDict r) = rowToDict r := rfl

theorem keepRow_rowToDict (r : Row) (h1 : r.role ≠ "") (h2 : r.content ≠ "") :
    keepRow (rowToDict r) = true := by
  rw [keepRow_iff]
  exact ⟨⟨r.role, rfl, h1⟩, ⟨r.content, rfl, h2⟩⟩

/-- Function `format_history` keeps projected store rows untouched when their
role and content are non-empty. -/
theorem fh_map_rowToDict (S : List Row) (h : ∀ r ∈ S, r.role ≠ "" ∧ r.content ≠ "") :
    format_history (S.map rowToDict) = S.map rowToDict := by
  unfold format_history
  rw [List.filter_map]
  have hself : S.filter (keepRow ∘ rowToDict) = S := by
    apply List.filter_eq_self.mpr
    intro a ha
    exact keepRow_rowToDict a (h a ha).1 (h a ha).2
  rw [hself, List.map_map]
  exact List.map_congr_left (fun a _ => projRow_rowToDict a)

/-- C2 counterexample: a session with one prior turn (fewer than 6) does
not get a window equal to its prior history — the just-inserted user
message is fetched too, so the prompt carries it inside the window as
well as at the end. -/
theorem C2_counterexample :
    (chatWithStore "s2" "c" [⟨"s2", "user", "a"⟩, ⟨"s2", "assistant", "b"⟩]
        (.success "r" "0.1") .transportError).messages
      ≠ [sysDict, [("role", "user"), ("content", "a")],
          [("role", "assistant"), ("content", "b")], userDict "c"] := by
  decide

/-- C2 (amended): the ConversationWindow of a turn is the most recent
min(p+1, 6) messages — in chronological order, projected to role and
content — of the prior history extended with the turn's just-persisted
user message (p prior messages), provided the stored rows and the new
message are well-formed (non-empty role and content): the full extended
history when it has at most 6 messages, and exactly 6 entries
otherwise; and the assembled prompt is [system directive] ++ window ++
[new user message]. -/
theorem C2_window_amended (sid msg : String) (store : List Row) (p f : LLMOutcome)
    (hist : List Row) (hhist : hist = sessionRows store sid ++ [userRow sid msg])
    (hmsg : msg ≠ "")
    (hrows : ∀ r ∈ store, r.session_id = sid → r.role ≠ "" ∧ r.content ≠ "") :
    windowOf sid msg store = (hist.drop (hist.length - 6)).map rowToDict
      ∧ (hist.length ≤ 6 → windowOf sid msg store = hist.map rowToDict)
      ∧ (6 ≤ hist.length → (windowOf sid msg store).length = 6)
      ∧ (chatWithStore sid msg store p f).messages
        = sysDict :: (windowOf sid msg store ++ [userDict msg]) := by
  have hfilter : (store ++ [userRow sid msg]).filter (fun r => r.session_id == sid) = hist := by
    rw [List.filter_append, hhist, sessionRows]
    simp [userRow]
  have hwf : ∀ r ∈ hist, r.role ≠ "" ∧ r.content ≠ "" := by
    intro r hr
    rw [hhist] at hr
    rcases List.mem_append.mp hr with h | h
    · have := List.mem_filter.mp h
      exact hrows r this.1 (by simpa using this.2)
    · rcases List.mem_singleton.mp h with rfl
      exact ⟨by simp [userRow], by simpa [userRow] using hmsg⟩
  have hwin : windowOf sid msg store = (hist.drop (hist.length - 6)).map rowToDict := by
    unfold windowOf query_recent
    rw [hfilter, ← List.map_reverse, List.take_reverse, List.reverse_reverse]
    exact fh_map_rowToDict _ (fun r hr => hwf r (List.drop_subset _ _ hr))
  refine ⟨hwin, ?_, ?_, ?_⟩
  · intro hle
    rw [hwin, Nat.sub_eq_zero_of_le hle, List.drop_zero]
  · intro hge
    rw [hwin, List.length_map, List.length_drop]
    omega
  · rw [chatWithStore, chat_messages]
    rfl

/-- Witness for C2 (amended) on a session with seven well-formed prior
messages: the window drops the two oldest of the eight fetched
messages and has exactly six entries. -/
theorem C2_window_amended_witness :
    (6 : Nat) ≤ (sessionRows [⟨"s6", "user", "m1"⟩, ⟨"s6", "assistant", "m2"⟩,
        ⟨"s6", "user", "m3"⟩, ⟨"s6", "assistant", "m4"⟩, ⟨"s6", "user", "m5"⟩,
        ⟨"s6", "assistant", "m6"⟩, ⟨"s6", "user", "m7"⟩] "s6" ++ [userRow "s6" "m8"]).length
      ∧ (windowOf "s6" "m8" [⟨"s6", "user", "m1"⟩, ⟨"s6", "assistant", "m2"⟩,
          ⟨"s6", "user", "m3"⟩, ⟨"s6", "assistant", "m4"⟩, ⟨"s6", "user", "m5"⟩,
          ⟨"s6", "assistant", "m6"⟩, ⟨"s6", "user", "m7"⟩]).length = 6 :=
  ⟨by decide,
    (C2_window_amended "s6" "m8" [⟨"s6", "user", "m1"⟩, ⟨"s6", "assistant", "m2"⟩,
        ⟨"s6", "user", "m3"⟩, ⟨"s6", "assistant", "m4"⟩, ⟨"s6", "user", "m5"⟩,
        ⟨"s6", "assistant", "m6"⟩, ⟨"s6", "user", "m7"⟩] .transportError .transportError
        _ rfl (by decide) (by decide)).2.2.1 (by decide)⟩

end Chatbot
